import Mathlib

set_option autoImplicit false

/-! # Verification of the chat-store control plane (controller repository)

Shallow embedding of the Go control plane.  Store tables are lists of
records, store operations are pure functions on a `Store` value,
infrastructure failures (connection loss, transaction faults, launcher
replies) are oracle inputs, and the Go retry loops are embedded as
structurally recursive functions instrumented with downstream-call and
backoff-sleep counters.  Timestamps are integers with `0` denoting the Go
zero time; durations use the same unit.  UUIDs are natural numbers. -/

/-- Classified database error of the writer layer (`errors.DbError`).
`err = none` models a nil wrapped Go error. -/
structure DbError where
  err : Option String
  reconcilable : Bool
  deriving Repr, DecidableEq

/-- Error returned by the raw reader.  `fmt.Errorf` wrapping with the w verb
keeps `errors.Is` working, so the `noRows` constructor survives the wrap done
inside `Reader.GetFreeMigrationWorker` and `Reader.GetControllerState`. -/
inductive ReadErr where
  | noRows
  | other (msg : String)
  deriving Repr, DecidableEq

/-- `sqlc.ControllerStatus` row.  The heartbeat column mirrors
`pgtype.Timestamptz` with its time value and validity flag. -/
structure ControllerStatus where
  scaling : Bool
  lastHeartbeatTime : Int
  lastHeartbeatValid : Bool
  deriving Repr, DecidableEq

/-- The zero value of `sqlc.ControllerStatus`: the Go zero time is instant 0. -/
def zeroControllerStatus : ControllerStatus :=
  { scaling := false, lastHeartbeatTime := 0, lastHeartbeatValid := false }

/-- Retry loop of `ReaderPerfectionist.GetControllerState` (readerRetry.go).
The Go body declares an outer `var err error` and then shadows it inside the
loop with a short variable declaration (`state, err := ...`), so after the
last retry the function returns the never-assigned outer variable, which is
nil.  The loop runs for `i = 1..maxRetries`; `remaining` counts the
iterations left (`maxRetries + 1 - i`), making the recursion structural.
Result: `((state, error), downstream calls, backoff sleeps)`. -/
def ReaderPerfectionist.getControllerStateAux
    (attempt : Nat → ControllerStatus × Option ReadErr) (maxRetries : Nat) :
    Nat → Nat → Nat → Nat → (ControllerStatus × Option ReadErr) × Nat × Nat
  | _, 0, calls, sleeps => ((zeroControllerStatus, none), calls, sleeps)
  | i, remaining + 1, calls, sleeps =>
    if (attempt i).2 = none then (((attempt i).1, none), calls + 1, sleeps)
    else if i < maxRetries then
      ReaderPerfectionist.getControllerStateAux attempt maxRetries
        (i + 1) remaining (calls + 1) (sleeps + 1)
    else
      ReaderPerfectionist.getControllerStateAux attempt maxRetries
        (i + 1) remaining (calls + 1) sleeps

/-- `ReaderPerfectionist.GetControllerState`: run the retry loop from `i = 1`
with `maxRetries` iterations available.  `attempt i` is the outcome of the
i-th downstream `Reader.GetControllerState` call. -/
def ReaderPerfectionist.GetControllerState
    (attempt : Nat → ControllerStatus × Option ReadErr) (maxRetries : Nat) :
    (ControllerStatus × Option ReadErr) × Nat × Nat :=
  ReaderPerfectionist.getControllerStateAux attempt maxRetries 1 maxRetries 0 0

/-- Retry loop of `ReaderPerfectionist.GetFreeMigrationWorker`
(readerRetry.go).  Identical shape to the controller-state loop, including
the shadowed error variable: the value returned after exhaustion is
`(pgtype.UUID zero value, nil)`.  Every error is retried; the loop performs
no terminal/reconcilable classification, so the no-rows sentinel is retried
like any other failure. -/
def ReaderPerfectionist.getFreeMigrationWorkerAux
    (attempt : Nat → Nat × Option ReadErr) (maxRetries : Nat) :
    Nat → Nat → Nat → Nat → (Nat × Option ReadErr) × Nat × Nat
  | _, 0, calls, sleeps => ((0, none), calls, sleeps)
  | i, remaining + 1, calls, sleeps =>
    if (attempt i).2 = none then (((attempt i).1, none), calls + 1, sleeps)
    else if i < maxRetries then
      ReaderPerfectionist.getFreeMigrationWorkerAux attempt maxRetries
        (i + 1) remaining (calls + 1) (sleeps + 1)
    else
      ReaderPerfectionist.getFreeMigrationWorkerAux attempt maxRetries
        (i + 1) remaining (calls + 1) sleeps

/-- `ReaderPerfectionist.GetFreeMigrationWorker` wrapper entry point. -/
def ReaderPerfectionist.GetFreeMigrationWorker
    (attempt : Nat → Nat × Option ReadErr) (maxRetries : Nat) :
    (Nat × Option ReadErr) × Nat × Nat :=
  ReaderPerfectionist.getFreeMigrationWorkerAux attempt maxRetries 1 maxRetries 0 0

/-- Retry loop of `WriterPerfectionist.RemoveWorker` (writerRetry file).
Unlike the reader loops, the writer loop assigns the outer error variable
(`err = ...`) and short-circuits on a non-reconcilable error.  `lastErr`
carries the outer variable (zero `oe.DbError` initially); after exhaustion
the last assigned error is returned. -/
def WriterPerfectionist.removeWorkerAux
    (attempt : Nat → DbError) (maxRetries : Nat) :
    Nat → Nat → DbError → Nat → Nat → DbError × Nat × Nat
  | _, 0, lastErr, calls, sleeps => (lastErr, calls, sleeps)
  | i, remaining + 1, _, calls, sleeps =>
    if (attempt i).err = none then (attempt i, calls + 1, sleeps)
    else if (attempt i).reconcilable = false then (attempt i, calls + 1, sleeps)
    else if i < maxRetries then
      WriterPerfectionist.removeWorkerAux attempt maxRetries
        (i + 1) remaining (attempt i) (calls + 1) (sleeps + 1)
    else
      WriterPerfectionist.removeWorkerAux attempt maxRetries
        (i + 1) remaining (attempt i) (calls + 1) sleeps

/-- `WriterPerfectionist.RemoveWorker` wrapper entry point.  `attempt i` is
the `oe.DbError` returned by the i-th downstream `Writer.RemoveWorker` call. -/
def WriterPerfectionist.RemoveWorker
    (attempt : Nat → DbError) (maxRetries : Nat) : DbError × Nat × Nat :=
  WriterPerfectionist.removeWorkerAux attempt maxRetries 1 maxRetries
    { err := none, reconcilable := false } 0 0

/-- `sqlc.DbInstance` row. -/
structure DbInstance where
  url : String
  maxSpace : Int
  occupiedSpace : Option Int
  collectionCount : Option Int
  lastQueried : Option Int
  deriving Repr, DecidableEq

/-- `sqlc.DbMapping` row. -/
structure DbMapping where
  id : Nat
  url : String
  from_ : String
  size : Int
  deriving Repr, DecidableEq

/-- `sqlc.MigrationWorker` row. -/
structure MigrationWorker where
  id : Nat
  lastHeartbeat : Int
  uptime : Int
  workingOnFrom : String
  workingOnTo : String
  deriving Repr, DecidableEq

/-- `sqlc.DbMigration` row. -/
structure DbMigration where
  id : Nat
  url : String
  mWorkerId : Nat
  from_ : String
  to_ : String
  status : String
  deriving Repr, DecidableEq

/-- `migration_worker_jobs` join row. -/
structure MigrationWorkerJob where
  workerId : Nat
  migrationId : Nat
  deriving Repr, DecidableEq

/-- `sqlc.DbConnErr` row. -/
structure DbConnErr where
  workerId : Nat
  dbUrl : String
  failTime : Int
  deriving Repr, DecidableEq

/-- The shared relational store: one list per control-plane table. -/
structure Store where
  controllerStatus : List ControllerStatus
  dbInstances : List DbInstance
  dbMappings : List DbMapping
  migrationWorkers : List MigrationWorker
  dbMigrations : List DbMigration
  migrationWorkerJobs : List MigrationWorkerJob
  dbConnErrs : List DbConnErr
  deriving Repr, DecidableEq

/-- Ids of the migration-worker rows currently in the store. -/
def workerIds (s : Store) : List Nat :=
  s.migrationWorkers.map (fun w => w.id)

/-- `Reader.GetControllerState` (reader.go): `SELECT * FROM controller_status
LIMIT 1`.  An empty table yields the wrapped `pgx.ErrNoRows` together with the
zero-value row. -/
def Reader.GetControllerState (s : Store) : ControllerStatus × Option ReadErr :=
  match s.controllerStatus with
  | [] => (zeroControllerStatus, some ReadErr.noRows)
  | c :: _ => (c, none)

/-- Result of the raw `Reader.GetFreeMigrationWorker` call as observed by the
scheduler: a free worker id, the `pgx.ErrNoRows` sentinel, or any other
engine error. -/
inductive FreeWorkerRes where
  | found (id : Nat)
  | noRows
  | fault (msg : String)
  deriving Repr, DecidableEq

/-- `Reader.GetFreeMigrationWorker` (reader.go): the `GetFreeMigrationWorker`
query selects ids of `migration_worker` minus the `m_worker_id` column of
`db_migration`, `LIMIT 1`.  `fault` is the infrastructure-failure oracle
(transaction begin or commit failure). -/
def Reader.GetFreeMigrationWorker (fault : Option String) (s : Store) : FreeWorkerRes :=
  match fault with
  | some f => FreeWorkerRes.fault f
  | none =>
    match (workerIds s).filter
        (fun id => id ∉ s.dbMigrations.map (fun m => m.mWorkerId)) with
    | [] => FreeWorkerRes.noRows
    | id :: _ => FreeWorkerRes.found id

/-- Modelled from the spec: the live schema (the migrations directory) is not
under src, so table constraints come from spec section 3, which declares
`DbMigration.m_worker_id` a foreign key referencing `MigrationWorker.id`.
An insert whose worker id is absent fails with a foreign-key violation
(terminal, code 23503). -/
def migrationFkViolated (s : Store) (mWorkerId : Nat) : Prop :=
  mWorkerId ∉ workerIds s

instance (s : Store) (m : Nat) : Decidable (migrationFkViolated s m) := by
  unfold migrationFkViolated; infer_instance

/-- Modelled from the spec: the live schema is not under src; spec section 3
declares `(url, from)` unique on `DbMapping`, so a mapping insert that
duplicates the pair fails with a uniqueness violation (terminal). -/
def mappingUniqueViolated (s : Store) (url from_ : String) : Prop :=
  ∃ m ∈ s.dbMappings, m.url = url ∧ m.from_ = from_

instance (s : Store) (u f : String) : Decidable (mappingUniqueViolated s u f) := by
  unfold mappingUniqueViolated; infer_instance

/-- `WriterPerfectionist.AddMigrationWorker` as the scheduler would observe
it if the wrapped insert returned: a disclosed idealization.  The real
`Writer.AddMigrationWorker` never returns on its success path - it blocks on
a bare `select` after the commit (claim C9; `Writer.AddMigrationWorker`
below and `Scheduler.RunMigrationBlocking` model that literally).  This
oracle-outcome version, in which success is a return of the committed row,
is used only to refute the scenario claims (C2, C3): even granting the code
this generosity the scenarios still fail, so those refutations are only
strengthened.  `fault` is the infrastructure-failure oracle (the error the
wrapper surfaces after its retry loop); a duplicate id is a uniqueness
violation. -/
def WriterPerfectionist.AddMigrationWorker (id : Nat) (from_ to_ : String)
    (now : Int) (fault : Option String) (s : Store) : Option String × Store :=
  match fault with
  | some f => (some f, s)
  | none =>
    if id ∈ workerIds s then (some "UNIQUE violation - code 23505", s)
    else
      (none,
        { s with migrationWorkers := s.migrationWorkers ++
            [{ id := id, lastHeartbeat := now, uptime := 0,
               workingOnFrom := from_, workingOnTo := to_ }] })

/-- `WriterPerfectionist.RemoveMigrationWorker` as seen by the scheduler:
`DELETE FROM migration_worker WHERE id = $1`; zero rows affected is a
terminal error per `utils.Must`. -/
def WriterPerfectionist.RemoveMigrationWorker (id : Nat) (fault : Option String)
    (s : Store) : Option String × Store :=
  match fault with
  | some f => (some f, s)
  | none =>
    if id ∈ workerIds s then
      (none,
        { s with migrationWorkers :=
            s.migrationWorkers.filter (fun w => w.id ≠ id) })
    else (some "no execution error but no rows affected", s)

/-- `database.MigrationJobAddReq` (writer). -/
structure MigrationJobAddReq where
  from_ : String
  to_ : String
  url : String
  mWorkerId : Nat
  deriving Repr, DecidableEq

/-- `WriterPerfectionist.AddMigrationJob` as seen by the scheduler: the
`CreateMigrationJob` query of query.sql is
`INSERT INTO db_migration ... SELECT db_mapping.id, db_mapping.url,
m_worker_id, db_mapping.from, to, waiting FROM db_mapping WHERE
db_mapping.url = $1 AND db_mapping.from = $2`, with `$1 = addReq.Url` (the
migration goal url) and `$2 = addReq.From`.  Zero matched mappings means zero
rows affected, a terminal error per `utils.Must`; constraint violations are
terminal; otherwise the selected rows are inserted with status waiting and
`id` copied from the mapping row. -/
def WriterPerfectionist.AddMigrationJob (req : MigrationJobAddReq)
    (fault : Option String) (s : Store) : Option String × Store :=
  match fault with
  | some f => (some f, s)
  | none =>
    let matched := s.dbMappings.filter (fun m => m.url = req.url && m.from_ = req.from_)
    if matched.isEmpty then (some "no execution error but no rows affected", s)
    else if migrationFkViolated s req.mWorkerId then
      (some "FOREIGN KEY violation - code 23503", s)
    else if matched.any (fun m => (s.dbMigrations.map (fun g => g.id)).contains m.id) then
      (some "UNIQUE violation - code 23505", s)
    else
      (none,
        { s with dbMigrations := s.dbMigrations ++
            matched.map (fun m =>
              { id := m.id, url := m.url, mWorkerId := req.mWorkerId,
                from_ := m.from_, to_ := req.to_, status := "waiting" }) })

/-- `WriterPerfectionist.AddDatabaseMapping` as seen by the scheduler:
`CreateMapping` inserts `(fresh uuid, url, from, size 0)`; a duplicate
`(url, from)` pair is a terminal uniqueness violation. -/
def WriterPerfectionist.AddDatabaseMapping (from_ url : String) (newId : Nat)
    (s : Store) : Option String × Store :=
  if mappingUniqueViolated s url from_ then
    (some "UNIQUE violation - code 23505", s)
  else
    (none,
      { s with dbMappings := s.dbMappings ++
          [{ id := newId, url := url, from_ := from_, size := 0 }] })

/-- Oracle inputs of one `RunMigration` call: the fresh uuid handed out by
`uuid.New`, the wall clock, the infrastructure-failure oracles of the store
operations, and the launcher reply (`none` = success; `some e` = error reply
or the five-second caller timeout of `utils.ChanWihTimeout`). -/
structure SchedulerEnv where
  newWorkerId : Nat
  now : Int
  freeWorkerFault : Option String
  addWorkerFault : Option String
  spawnReply : Option String
  removeFault : Option String
  addJobFault : Option String
  deriving Repr, DecidableEq

/-- Final phase of `Scheduler.RunMigration` (scheduler.go): insert the
migration job and surface its error. -/
def Scheduler.runMigrationJobPhase (from_ to_ goalUrl : String) (mid : Nat)
    (env : SchedulerEnv) (s : Store) : Option String × Store :=
  let req : MigrationJobAddReq :=
    { from_ := from_, to_ := to_, url := goalUrl, mWorkerId := mid }
  let r := WriterPerfectionist.AddMigrationJob req env.addJobFault s
  match r.1 with
  | some e => (some ("adding migration job failed: " ++ e), r.2)
  | none => (none, r.2)

/-- Middle phase of `Scheduler.RunMigration` (scheduler.go): for a new worker,
send the spawn request to the launcher and wait on the reply channel.  On a
failure reply the code deletes the just-inserted worker row; the source has
no return statement after a successful compensation, so control falls
through to the job insert. -/
def Scheduler.runMigrationSpawnPhase (newWorker : Bool) (from_ to_ goalUrl : String)
    (mid : Nat) (env : SchedulerEnv) (s : Store) : Option String × Store :=
  if newWorker then
    match env.spawnReply with
    | some _ =>
      let r := WriterPerfectionist.RemoveMigrationWorker mid env.removeFault s
      match r.1 with
      | some e => (some ("could not remove migration worker from database: " ++ e), r.2)
      | none => Scheduler.runMigrationJobPhase from_ to_ goalUrl mid env r.2
    | none => Scheduler.runMigrationJobPhase from_ to_ goalUrl mid env s
  else Scheduler.runMigrationJobPhase from_ to_ goalUrl mid env s

/-- `Scheduler.RunMigration` (scheduler.go): look for a free migration
worker; on the no-rows sentinel create a new worker row and mark it new; on
any other reader error fail the request; then run the spawn and job phases.
Store-operation outcomes are oracle inputs carried by `env`, so the
scheduler control flow is modelled for every possible downstream outcome. -/
def Scheduler.RunMigration (from_ to_ goalUrl : String) (env : SchedulerEnv)
    (s : Store) : Option String × Store :=
  match Reader.GetFreeMigrationWorker env.freeWorkerFault s with
  | FreeWorkerRes.fault e =>
    (some ("could not get migration worker from database: " ++ e), s)
  | FreeWorkerRes.noRows =>
    let r := WriterPerfectionist.AddMigrationWorker env.newWorkerId from_ to_
      env.now env.addWorkerFault s
    match r.1 with
    | some e => (some ("could not add migration worker to table: " ++ e), r.2)
    | none =>
      Scheduler.runMigrationSpawnPhase true from_ to_ goalUrl env.newWorkerId env r.2
  | FreeWorkerRes.found w =>
    Scheduler.runMigrationSpawnPhase false from_ to_ goalUrl w env s

/-- The startup alphabet built by `CalculateStartupMapping`: the 26 range
starts a through z. -/
def alphabet : List Char := (List.range 26).map (fun i => Char.ofNat (97 + i))

/-- `rangeCountPerDB` of `CalculateStartupMapping` (scheduler.go):
`int(math.Ceil(26 / float64(n)))`.  For `1 ≤ n ≤ 26` the float64 quotient is
within 2⁻⁵¹ of the rational value and the nearest integers are at least 1/26
away, so the float ceiling equals the rational ceiling `(26 + n - 1) / n`. -/
def rangeCountPerDB (n : Nat) : Nat := (26 + n - 1) / n

/-- The instance loop of `CalculateStartupMapping`: the worker at position
`count` is assigned `alphabet[count * rangeCountPerDB]`.  An out-of-range
index is a Go runtime panic, modelled as a `none` start; in Go the panic
aborts the function, so entries after a `none` are unreachable. -/
def startupLoop (n : Nat) : List String → Nat → List (String × Option Char)
  | [], _ => []
  | u :: rest, count =>
    (u, alphabet.get? (count * rangeCountPerDB n)) :: startupLoop n rest (count + 1)

/-- `Scheduler.CalculateStartupMapping` (scheduler.go): fails (returns nil)
for zero instances or for more than 26; otherwise emits one range start per
instance in list order. -/
def Scheduler.CalculateStartupMapping (dbInfos : List String) :
    Option (List (String × Option Char)) :=
  if dbInfos.length = 0 then none
  else if 26 < dbInfos.length then none
  else some (startupLoop dbInfos.length dbInfos 0)

/-- `Scheduler.ExecuteStartUpMapping` (scheduler.go): write each emitted
mapping through the retrying wrapper; a write failure only logs a warning and
the loop continues.  `idBase` generates the fresh mapping uuids. -/
def Scheduler.ExecuteStartUpMapping :
    List (String × Option Char) → Nat → Store → Store
  | [], _, s => s
  | (u, some c) :: rest, idBase, s =>
    let r := WriterPerfectionist.AddDatabaseMapping (String.mk [c]) u idBase s
    Scheduler.ExecuteStartUpMapping rest (idBase + 1) r.2
  | (_, none) :: rest, idBase, s =>
    Scheduler.ExecuteStartUpMapping rest idBase s

/-- Outcome of a writer method that may fail to return at all. -/
inductive WriterOutcome where
  | ret (e : DbError)
  | blocked
  deriving Repr, DecidableEq

/-- Per-transaction infrastructure-failure oracles of a writer method. -/
structure TxFaults where
  beginTx : Option String
  exec : Option String
  commit : Option String
  deriving Repr, DecidableEq

/-- `Writer.AddMigrationWorker` (database writer in main.go): begin a
transaction, parse the uuid, insert the row, commit - and then execute
`select` with no cases, which blocks forever.  The trailing debug log and the
`return oe.DbError with nil Err` are unreachable, so the success path yields
`blocked` with the insert already committed. -/
def Writer.AddMigrationWorker (uuidValid : Bool) (id : Nat) (from_ to_ : String)
    (now : Int) (f : TxFaults) (s : Store) : WriterOutcome × Store :=
  match f.beginTx with
  | some e => (WriterOutcome.ret { err := some e, reconcilable := true }, s)
  | none =>
    if uuidValid = false then
      (WriterOutcome.ret { err := some "could not parse uuid", reconcilable := false }, s)
    else
      match f.exec with
      | some e => (WriterOutcome.ret { err := some e, reconcilable := true }, s)
      | none =>
        if id ∈ workerIds s then
          (WriterOutcome.ret
            { err := some "UNIQUE violation - code 23505", reconcilable := false }, s)
        else
          match f.commit with
          | some e => (WriterOutcome.ret { err := some e, reconcilable := true }, s)
          | none =>
            (WriterOutcome.blocked,
              { s with migrationWorkers := s.migrationWorkers ++
                  [{ id := id, lastHeartbeat := now, uptime := 0,
                     workingOnFrom := from_, workingOnTo := to_ }] })

/-- Outcome of a `RunMigration` invocation with the writer taken literally:
either the call returns (error option and resulting store), or it blocks
forever with the given committed store. -/
inductive RunOutcome where
  | ret (err : Option String) (s : Store)
  | blocked (s : Store)
  deriving Repr, DecidableEq

/-- `Scheduler.RunMigration` with `Writer.AddMigrationWorker` taken
literally instead of as a wrapper-outcome oracle.  The retry wrapper around
the insert is transparent to blocking: on the success path its first
downstream call never returns (the bare `select` of C9 runs after the
commit), so the wrapper, and with it the whole new-worker branch, blocks
before the launcher spawn request is ever sent - the compensation and the
error return of the spawn phase are unreachable from this branch.  The
nil-error `ret` fallback is kept only for totality of the match;
`Writer.AddMigrationWorker` never produces it. -/
def Scheduler.RunMigrationBlocking (from_ to_ goalUrl : String)
    (env : SchedulerEnv) (wf : TxFaults) (s : Store) : RunOutcome :=
  match Reader.GetFreeMigrationWorker env.freeWorkerFault s with
  | FreeWorkerRes.fault e =>
    RunOutcome.ret (some ("could not get migration worker from database: " ++ e)) s
  | FreeWorkerRes.noRows =>
    match Writer.AddMigrationWorker true env.newWorkerId from_ to_ env.now wf s with
    | (WriterOutcome.blocked, s1) => RunOutcome.blocked s1
    | (WriterOutcome.ret e, s1) =>
      match e.err with
      | some msg =>
        RunOutcome.ret (some ("could not add migration worker to table: " ++ msg)) s1
      | none =>
        let r := Scheduler.runMigrationSpawnPhase true from_ to_ goalUrl
          env.newWorkerId env s1
        RunOutcome.ret r.1 r.2
  | FreeWorkerRes.found w =>
    let r := Scheduler.runMigrationSpawnPhase false from_ to_ goalUrl w env s
    RunOutcome.ret r.1 r.2

/-- Errors surfaced by `Reconciler.CheckControllerUp` (reconciler.go):
the distinguished `ownErrors.ErrControllerCrashed`, or a wrapped store error. -/
inductive CheckErr where
  | controllerCrashed
  | other (msg : String)
  deriving Repr, DecidableEq

/-- `Reconciler.CheckControllerUp` (reconciler.go): read the controller state
through the retrying wrapper; on an error surface it wrapped; otherwise
compare `now - last_heartbeat` against the timeout and return the
controller-crashed sentinel when it is exceeded. -/
def Reconciler.CheckControllerUp (now timeout : Int) (maxRetries : Nat)
    (s : Store) : Option CheckErr :=
  match (ReaderPerfectionist.GetControllerState
      (fun _ => Reader.GetControllerState s) maxRetries).1 with
  | (_, some _) => some (CheckErr.other "checking if controller is running failed")
  | (state, none) =>
    if timeout < now - state.lastHeartbeatTime then some CheckErr.controllerCrashed
    else none

/-- Reaction of the controller shell (controller.go `checkControllerUp`) to
the result of one check iteration: the crashed sentinel flips the shadow flag
and starts the leader heartbeat; any other error is fatal; no error keeps
waiting. -/
inductive ShellAction where
  | promote
  | fatal
  | keepWaiting
  deriving Repr, DecidableEq

/-- Shell dispatch on the check result (controller.go): `errors.Is` against
`ErrControllerCrashed` decides promotion versus fatal exit. -/
def Controller.handleCheckResult : Option CheckErr → ShellAction
  | none => ShellAction.keepWaiting
  | some CheckErr.controllerCrashed => ShellAction.promote
  | some (CheckErr.other _) => ShellAction.fatal

/-- An entry of `db_conn_err` is in the failure-rate window when it is
younger than 30 minutes: `failureTime.After(now.Add(-30 * time.Minute))`,
with times in seconds. -/
def recentConnErr (now : Int) (e : DbConnErr) : Bool := now - 1800 < e.failTime

/-- The connection errors inside the 30-minute window. -/
def recentErrs (now : Int) (errs : List DbConnErr) : List DbConnErr :=
  errs.filter (recentConnErr now)

/-- First pass of `CheckFailureRate`: append an id on first sight, keeping
the order of first appearance. -/
def insertIfNew {α : Type} [DecidableEq α] (x : α) (l : List α) : List α :=
  if x ∈ l then l else l ++ [x]

/-- Worker ids appearing among the recent connection errors, in order of
first appearance (the `workerList` of `CheckFailureRate`). -/
def collectWorkers (l : List DbConnErr) : List Nat :=
  l.foldl (fun acc e => insertIfNew e.workerId acc) []

/-- Database urls appearing among the recent connection errors, in order of
first appearance (the `dbList` of `CheckFailureRate`). -/
def collectDbs (l : List DbConnErr) : List String :=
  l.foldl (fun acc e => insertIfNew e.dbUrl acc) []

/-- One cell of the `errorToFrequency` matrix: the number of recent
connection errors of worker `w` against database `d`. -/
def cellCount (now : Int) (errs : List DbConnErr) (w : Nat) (d : String) : Nat :=
  ((recentErrs now errs).filter (fun e => e.workerId == w && e.dbUrl == d)).length

/-- Row sum of the matrix for one worker (errors of `w` across `dbList`). -/
def rowSum (now : Int) (errs : List DbConnErr) (w : Nat) : Nat :=
  ((collectDbs (recentErrs now errs)).map (fun d => cellCount now errs w d)).sum

/-- Column sum of the matrix for one database (errors against `d` across
`workerList`). -/
def colSum (now : Int) (errs : List DbConnErr) (d : String) : Nat :=
  ((collectWorkers (recentErrs now errs)).map (fun w => cellCount now errs w d)).sum

/-- One warning entry of the `CheckFailureRate` report. -/
inductive FailureWarning where
  | cell (workerId : Nat) (dbUrl : String) (count : Nat)
  | row (workerId : Nat) (count : Nat)
  | col (dbUrl : String) (count : Nat)
  deriving Repr, DecidableEq

/-- The warnings collected by `Reconciler.CheckFailureRate` (reconciler.go):
cells, then row sums, then column sums, each compared against the literal
threshold 3 (`errorCount > 3`, `rowSum > 3`, `colSum > 3`). -/
def CheckFailureRateWarnings (now : Int) (errs : List DbConnErr) :
    List FailureWarning :=
  let workerList := collectWorkers (recentErrs now errs)
  let dbList := collectDbs (recentErrs now errs)
  (workerList.flatMap (fun w => dbList.filterMap (fun d =>
      if 3 < cellCount now errs w d then
        some (FailureWarning.cell w d (cellCount now errs w d))
      else none))) ++
  (workerList.filterMap (fun w =>
      if 3 < rowSum now errs w then some (FailureWarning.row w (rowSum now errs w))
      else none)) ++
  (dbList.filterMap (fun d =>
      if 3 < colSum now errs d then some (FailureWarning.col d (colSum now errs d))
      else none))

/-- `Controller.migrationHandler` (httpHandlers.go).  In shadow mode the
handler writes the 403 header but the source is missing the return
statement, so execution continues; Go ignores every later `WriteHeader`, so
the first written status wins (`getD` on the option).  Missing query
parameters are modelled as empty strings, exactly as `URL.Query().Get`. -/
def Controller.migrationHandler (isShadow : Bool) (from_ to_ goalUrl : String)
    (env : SchedulerEnv) (s : Store) : Nat × Store :=
  let shadowStatus : Option Nat := if isShadow then some 403 else none
  if from_ = "" ∨ to_ = "" ∨ goalUrl = "" then (shadowStatus.getD 400, s)
  else
    let r := Scheduler.RunMigration from_ to_ goalUrl env s
    match r.1 with
    | some _ => (shadowStatus.getD 500, r.2)
    | none => (shadowStatus.getD 204, r.2)

/-- `Controller.startupMapping` (httpHandlers.go).  The source contains no
shadow check for this endpoint: it always calculates and executes the
startup mapping, answering 500 only when the calculation fails and 200
otherwise. -/
def Controller.startupMapping (s : Store) (idBase : Nat) : Nat × Store :=
  match Scheduler.CalculateStartupMapping (s.dbInstances.map (fun d => d.url)) with
  | none => (500, s)
  | some rangeMap => (200, Scheduler.ExecuteStartUpMapping rangeMap idBase s)

/-- The store of spec scenario 2: one mapping `(u1, a)`, no migration
workers, no migrations, no join rows. -/
def scenarioStore : Store :=
  { controllerStatus := [], dbInstances := [],
    dbMappings := [{ id := 1, url := "u1", from_ := "a", size := 0 }],
    migrationWorkers := [], dbMigrations := [], migrationWorkerJobs := [],
    dbConnErrs := [] }

/-- Oracle inputs of a fault-free scenario run with a successful launcher
reply. -/
def scenarioEnv : SchedulerEnv :=
  { newWorkerId := 100, now := 1000, freeWorkerFault := none,
    addWorkerFault := none, spawnReply := none, removeFault := none,
    addJobFault := none }

/-- A store holding exactly one registered database instance and nothing
else (startup-mapping scenario). -/
def startupStore : Store :=
  { controllerStatus := [], dbInstances :=
      [{ url := "u1", maxSpace := 100, occupiedSpace := none,
         collectionCount := none, lastQueried := none }],
    dbMappings := [], migrationWorkers := [], dbMigrations := [],
    migrationWorkerJobs := [], dbConnErrs := [] }

/-- Five connection errors of one worker against one database, all inside
the 30-minute window at `now = 10000`. -/
def fiveCellErrs : List DbConnErr :=
  List.replicate 5 { workerId := 1, dbUrl := "d1", failTime := 9999 }

/-! ## Helper lemmas -/

/-- Looking up a valid index of the startup alphabet yields the
corresponding lowercase letter. -/
theorem alphabet_get?_eq (k : Nat) (h : k < 26) :
    alphabet.get? k = some (Char.ofNat (97 + k)) := by
  rw [List.get?_eq_getElem?]
  simp [alphabet, List.getElem?_range, h]

/-- Entry `i` of the startup instance loop pairs the i-th url with the
alphabet slot at index `(c + i) * rangeCountPerDB n`. -/
theorem startupLoop_get? (n : Nat) (l : List String) :
    ∀ (c i : Nat), (startupLoop n l c).get? i =
      (l.get? i).map (fun u => (u, alphabet.get? ((c + i) * rangeCountPerDB n))) := by
  induction l with
  | nil => intro c i; simp [startupLoop]
  | cons u rest ih =>
    intro c i
    cases i with
    | zero => simp [startupLoop]
    | succ j =>
      simp only [startupLoop, List.get?_cons_succ, ih (c + 1) j]
      rw [show c + 1 + j = c + (j + 1) by omega]

/-- If every downstream attempt fails, the controller-state retry loop
returns the zero row paired with the shadowed (hence nil) outer error. -/
theorem getControllerStateAux_all_fail
    (attempt : Nat → ControllerStatus × Option ReadErr)
    (h : ∀ j, (attempt j).2 ≠ none) (maxRetries : Nat) :
    ∀ (remaining i calls sleeps : Nat),
      (ReaderPerfectionist.getControllerStateAux attempt maxRetries
        i remaining calls sleeps).1 = (zeroControllerStatus, none) := by
  intro remaining
  induction remaining with
  | zero => intro i calls sleeps; rfl
  | succ r ih =>
    intro i calls sleeps
    simp only [ReaderPerfectionist.getControllerStateAux, if_neg (h i)]
    split
    · exact ih (i + 1) (calls + 1) (sleeps + 1)
    · exact ih (i + 1) (calls + 1) sleeps

/-! ## Claim theorems -/

/-- C4: when all `MAX_RETRIES` attempts of a reader-wrapped store operation
fail with reconcilable errors, the wrapper does not return the error of the
last attempt: because the loop shadows the outer error variable, it returns
the zero-value `ControllerStatus` with a nil error after three downstream
calls and two backoff sleeps, a success result built from zero values. -/
theorem readerRetry_exhaustion_returns_nil_error :
    ReaderPerfectionist.GetControllerState
      (fun _ => (zeroControllerStatus, some (ReadErr.other "connection refused"))) 3 =
      ((zeroControllerStatus, none), 3, 2) := rfl

/-- C5 counterexample: the reader-side wrapper does not short-circuit on the
no-rows sentinel of `GetFreeMigrationWorker`.  With every attempt returning
the sentinel and `MAX_RETRIES = 3`, the wrapper makes 3 downstream calls and
2 backoff sleeps (the claim requires exactly 1 call and no sleeps), and then
returns the zero uuid with a nil error. -/
theorem readerRetry_noRows_is_retried :
    ReaderPerfectionist.GetFreeMigrationWorker
        (fun _ => (0, some ReadErr.noRows)) 3 = ((0, none), 3, 2) ∧
    (ReaderPerfectionist.GetFreeMigrationWorker
        (fun _ => (0, some ReadErr.noRows)) 3).2 ≠ (1, 0) := by
  exact ⟨rfl, by decide⟩

/-- C5 (amended): for writer-wrapped store operations the claim holds: a
terminal (non-reconcilable) error on the first attempt makes the wrapper
return that error immediately, after exactly one downstream call and with no
backoff sleeps. -/
theorem writerRetry_terminal_short_circuits (attempt : Nat → DbError)
    (maxRetries : Nat) (h1 : 1 ≤ maxRetries) (h2 : (attempt 1).err ≠ none)
    (h3 : (attempt 1).reconcilable = false) :
    WriterPerfectionist.RemoveWorker attempt maxRetries = (attempt 1, 1, 0) := by
  cases maxRetries with
  | zero => omega
  | succ r =>
    unfold WriterPerfectionist.RemoveWorker WriterPerfectionist.removeWorkerAux
    rw [if_neg h2, if_pos h3]

/-- Witness for C5: a concrete terminal first attempt (the zero-rows-affected
error of a delete) returns after one downstream call and no sleeps. -/
theorem writerRetry_terminal_short_circuits_witness :
    WriterPerfectionist.RemoveWorker
        (fun _ => { err := some "no rows affected", reconcilable := false }) 3 =
      ({ err := some "no rows affected", reconcilable := false }, 1, 0) :=
  writerRetry_terminal_short_circuits _ 3 (by omega) (by simp) rfl

/-- C9: `Writer.AddMigrationWorker` does not return on the success path.
After the insert transaction commits, the function executes a `select` with
no cases and blocks forever: the nil-error return is unreachable.  The
committed worker row is visible in the store while the caller never gets an
answer. -/
theorem addMigrationWorker_success_path_blocks :
    (Writer.AddMigrationWorker true 100 "a" "m" 1000
        { beginTx := none, exec := none, commit := none } scenarioStore).1 =
      WriterOutcome.blocked ∧
    (Writer.AddMigrationWorker true 100 "a" "m" 1000
        { beginTx := none, exec := none, commit := none } scenarioStore).2.migrationWorkers =
      [{ id := 100, lastHeartbeat := 1000, uptime := 0,
         workingOnFrom := "a", workingOnTo := "m" }] :=
  ⟨rfl, rfl⟩

/-- C2: the new-worker migration scenario does not succeed with 204.  With
one mapping `(u1, a)`, no workers and a successful launcher reply, the
`CreateMigrationJob` insert selects mappings with `url = goal_url = u2` and
`from = a`, matches nothing, affects zero rows (a terminal error), and the
handler answers 500; no `DbMigration` and no `MigrationWorkerJob` row is
created (the pipeline never writes a join row at all).  This evaluation also
sidesteps the blocking `select` of `Writer.AddMigrationWorker` (claim C9) by
modelling the wrapper outcome as an oracle; with the blocking taken
literally the request would never be answered at all. -/
theorem migrationHandler_scenario2_fails :
    (Controller.migrationHandler false "a" "m" "u2" scenarioEnv scenarioStore).1 = 500 ∧
    (Controller.migrationHandler false "a" "m" "u2" scenarioEnv scenarioStore).2.dbMigrations = [] ∧
    (Controller.migrationHandler false "a" "m" "u2" scenarioEnv scenarioStore).2.migrationWorkerJobs = [] :=
  ⟨rfl, rfl, rfl⟩

/-- C3: shadow mode does not protect the mutation endpoints.  The shadow
check of `migrationHandler` writes the 403 header but is missing its return
statement, so the migration pipeline still runs and commits a
`MigrationWorker` row; `startupMapping` has no shadow check at all, answers
200 and writes a `DbMapping` row. -/
theorem shadow_mode_still_writes :
    (Controller.migrationHandler true "a" "m" "u2" scenarioEnv scenarioStore).1 = 403 ∧
    (Controller.migrationHandler true "a" "m" "u2" scenarioEnv scenarioStore).2.migrationWorkers =
      [{ id := 100, lastHeartbeat := 1000, uptime := 0,
         workingOnFrom := "a", workingOnTo := "m" }] ∧
    (Controller.startupMapping startupStore 50).1 = 200 ∧
    (Controller.startupMapping startupStore 50).2.dbMappings =
      [{ id := 50, url := "u1", from_ := "a", size := 0 }] :=
  ⟨rfl, rfl, rfl, rfl⟩

/-- C1: the compensation contract is unreachable in the code.  In the
scenario store (one mapping, no free migration workers) with a launcher
that would refuse the spawn, `RunMigration` creates the worker row, commits
it, and then blocks forever inside `Writer.AddMigrationWorker` on the bare
`select`: the spawn request is never issued, no error is ever returned, and
the committed `MigrationWorker` row is never deleted, so the claimed
delete-and-return-error behaviour cannot occur. -/
theorem runMigration_new_worker_branch_blocks :
    Scheduler.RunMigrationBlocking "a" "m" "u2"
        { scenarioEnv with spawnReply := some "refused" }
        { beginTx := none, exec := none, commit := none } scenarioStore =
      RunOutcome.blocked
        { scenarioStore with migrationWorkers :=
            [{ id := 100, lastHeartbeat := 1000, uptime := 0,
               workingOnFrom := "a", workingOnTo := "m" }] } := rfl

/-- C6 counterexample: with three instances the code assigns the second
instance the start `alphabet[1 * ceil(26/3)] = alphabet[9] = j`, not the
claimed `alphabet[1 * floor(26/3)] = alphabet[8] = i`: `CalculateStartupMapping`
rounds the per-database split up, not down. -/
theorem startupMapping_uses_ceil_not_floor :
    Scheduler.CalculateStartupMapping ["u1", "u2", "u3"] =
      some [("u1", some 'a'), ("u2", some 'j'), ("u3", some 's')] ∧
    alphabet.get? (1 * (26 / 3)) = some 'i' ∧ ('j' : Char) ≠ 'i' :=
  ⟨rfl, rfl, by decide⟩

/-- C6 (amended): for every instance list whose length n is between 1 and 26,
and every position i whose alphabet index `i * rangeCountPerDB n` (with
`rangeCountPerDB n = ceil(26/n)`, not floor) is in range, the i-th instance
is assigned exactly the range start `alphabet[i * rangeCountPerDB n]`; in
particular two instances receive the starts a and n. -/
theorem calculateStartupMapping_assigns_ceil_starts (urls : List String) (i : Nat)
    (h26 : urls.length ≤ 26) (hi : i < urls.length)
    (hidx : i * rangeCountPerDB urls.length < 26) :
    ∃ l, Scheduler.CalculateStartupMapping urls = some l ∧
      l.get? i = some (urls.get ⟨i, hi⟩,
        some (Char.ofNat (97 + i * rangeCountPerDB urls.length))) := by
  have h0 : ¬ urls.length = 0 := by omega
  have h26n : ¬ 26 < urls.length := by omega
  refine ⟨startupLoop urls.length urls 0, ?_, ?_⟩
  · simp [Scheduler.CalculateStartupMapping, h0, h26n]
  · rw [startupLoop_get?, List.get?_eq_get hi]
    simp only [Option.map_some, Nat.zero_add]
    rw [alphabet_get?_eq _ hidx]
    rfl

/-- Witness for C6: with the two instances u1 and u2 the emitted starts are
a (index 0) and n (index `1 * 13 = 13`). -/
theorem calculateStartupMapping_assigns_ceil_starts_witness :
    ∃ l, Scheduler.CalculateStartupMapping ["u1", "u2"] = some l ∧
      l.get? 0 = some ("u1", some 'a') ∧ l.get? 1 = some ("u2", some 'n') := by
  obtain ⟨l, hcalc, h1⟩ :=
    calculateStartupMapping_assigns_ceil_starts ["u1", "u2"] 1
      (by decide) (by decide) (by decide)
  obtain ⟨l2, hcalc2, h0⟩ :=
    calculateStartupMapping_assigns_ceil_starts ["u1", "u2"] 0
      (by decide) (by decide) (by decide)
  rw [hcalc] at hcalc2
  obtain rfl := Option.some.inj hcalc2
  refine ⟨l, hcalc, ?_, ?_⟩
  · rw [h0]; decide
  · rw [h1]; decide

/-- C7: when the ControllerStatus row is missing entirely, the shadow check
returns the distinguished controller-crashed signal and the shell promotes
the shadow instead of failing fatally.  The mechanism: the reader retry
wrapper swallows the no-rows error (shadowed error variable) and hands back
the zero-value row, whose zero heartbeat instant is further in the past than
any positive timeout, so the heartbeat-age comparison fires. -/
theorem checkControllerUp_missing_row_promotes (now timeout : Int)
    (maxRetries : Nat) (s : Store)
    (hrow : s.controllerStatus = []) (htime : timeout < now) :
    Reconciler.CheckControllerUp now timeout maxRetries s =
      some CheckErr.controllerCrashed ∧
    Controller.handleCheckResult
      (Reconciler.CheckControllerUp now timeout maxRetries s) =
        ShellAction.promote := by
  have hread : ∀ j : Nat, ((fun _ => Reader.GetControllerState s) j).2 ≠ none := by
    intro j
    simp [Reader.GetControllerState, hrow]
  have hres := getControllerStateAux_all_fail _ hread maxRetries maxRetries 1 0 0
  have hcheck : Reconciler.CheckControllerUp now timeout maxRetries s =
      some CheckErr.controllerCrashed := by
    unfold Reconciler.CheckControllerUp ReaderPerfectionist.GetControllerState
    rw [hres]
    simp [zeroControllerStatus, htime]
  exact ⟨hcheck, by rw [hcheck]; rfl⟩

/-- Witness for C7: an empty store, a clock at 11 and the timeout 10 produce
the crashed signal and the promote action. -/
theorem checkControllerUp_missing_row_promotes_witness :
    Reconciler.CheckControllerUp 11 10 3 scenarioStore =
      some CheckErr.controllerCrashed ∧
    Controller.handleCheckResult (Reconciler.CheckControllerUp 11 10 3 scenarioStore) =
      ShellAction.promote :=
  checkControllerUp_missing_row_promotes 11 10 3 scenarioStore rfl (by decide)

/-- C10 counterexample: with eight instances `rangeCountPerDB 8 = 4` and the
eighth instance needs `alphabet[7 * 4] = alphabet[28]`, an out-of-range
access (a Go index panic, modelled as the `none` start): the computed index
does not stay below 26. -/
theorem startupMapping_panics_at_eight :
    Scheduler.CalculateStartupMapping
        ["u1", "u2", "u3", "u4", "u5", "u6", "u7", "u8"] =
      some [("u1", some 'a'), ("u2", some 'e'), ("u3", some 'i'),
            ("u4", some 'm'), ("u5", some 'q'), ("u6", some 'u'),
            ("u7", some 'y'), ("u8", none)] ∧
    7 * rangeCountPerDB 8 = 28 ∧ ¬ 7 * rangeCountPerDB 8 < 26 :=
  ⟨rfl, rfl, by decide⟩

/-- C10 (amended): for an instance count n between 1 and 26, every alphabet
index `count * rangeCountPerDB n` computed by `CalculateStartupMapping`
stays below 26 exactly when n is one of 1..7, 9, 13 or 26; for every other
count the last instance indexes out of range and the function panics. -/
theorem startupIndices_bounded_iff (n : Nat) (h1 : 1 ≤ n) (h2 : n ≤ 26) :
    (∀ c, c < n → c * rangeCountPerDB n < 26) ↔
      n ∈ ([1, 2, 3, 4, 5, 6, 7, 9, 13, 26] : List Nat) := by
  interval_cases n <;> decide

/-- Witness for C10: at n = 2 the indices are bounded and 2 is in the safe
set. -/
theorem startupIndices_bounded_iff_witness :
    ((∀ c, c < 2 → c * rangeCountPerDB 2 < 26) ↔
      2 ∈ ([1, 2, 3, 4, 5, 6, 7, 9, 13, 26] : List Nat)) ∧
    (∀ c, c < 2 → c * rangeCountPerDB 2 < 26) :=
  ⟨startupIndices_bounded_iff 2 (by decide) (by decide), by decide⟩

/-- C8 counterexample: exactly 5 connection errors in a single
(worker, database) cell inside the window do produce a warning, because the
literal threshold in `CheckFailureRate` is 3, not 5: the report contains a
cell, a row and a column warning. -/
theorem checkFailureRate_warns_at_five :
    cellCount 10000 fiveCellErrs 1 "d1" = 5 ∧
    CheckFailureRateWarnings 10000 fiveCellErrs =
      [FailureWarning.cell 1 "d1" 5, FailureWarning.row 1 5,
       FailureWarning.col "d1" 5] ∧
    CheckFailureRateWarnings 10000 fiveCellErrs ≠ [] := by
  have h : CheckFailureRateWarnings 10000 fiveCellErrs =
      [FailureWarning.cell 1 "d1" 5, FailureWarning.row 1 5,
       FailureWarning.col "d1" 5] := rfl
  exact ⟨rfl, h, by rw [h]; simp⟩

/-- C8 (amended): `CheckFailureRate` emits a warning if and only if, over the
connection errors younger than 30 minutes, some single (worker, database)
cell count, some per-worker row sum, or some per-database column sum exceeds
3 (the literal threshold in the code); in particular exactly 3 errors in a
cell produce no warning and 4 produce one. -/
theorem checkFailureRate_warns_iff (now : Int) (errs : List DbConnErr) :
    CheckFailureRateWarnings now errs ≠ [] ↔
      ((∃ w ∈ collectWorkers (recentErrs now errs),
          ∃ d ∈ collectDbs (recentErrs now errs), 3 < cellCount now errs w d) ∨
       (∃ w ∈ collectWorkers (recentErrs now errs), 3 < rowSum now errs w) ∨
       (∃ d ∈ collectDbs (recentErrs now errs), 3 < colSum now errs d)) := by
  unfold CheckFailureRateWarnings
  simp only [ne_eq, List.append_eq_nil, List.flatMap_eq_nil_iff,
    List.filterMap_eq_nil_iff, ite_eq_right_iff, reduceCtorEq, imp_false]
  constructor
  · intro h
    rcases not_and_or.mp h with hab | hc
    · rcases not_and_or.mp hab with ha | hb
      · left; push_neg at ha; exact ha
      · right; left; push_neg at hb; exact hb
    · right; right; push_neg at hc; exact hc
  · rintro (⟨w, hw, d, hd, h3⟩ | ⟨w, hw, h3⟩ | ⟨d, hd, h3⟩) ⟨⟨h1, h2⟩, h4⟩
    · exact (h1 w hw d hd) h3
    · exact (h2 w hw) h3
    · exact (h4 d hd) h3

/-- Witness for C8: four errors in one cell (above the threshold 3) produce a
warning, three do not. -/
theorem checkFailureRate_warns_iff_witness :
    CheckFailureRateWarnings 10000
        (List.replicate 4 { workerId := 1, dbUrl := "d1", failTime := 9999 }) ≠ [] ∧
    CheckFailureRateWarnings 10000
        (List.replicate 3 { workerId := 1, dbUrl := "d1", failTime := 9999 }) = [] := by
  constructor
  · exact (checkFailureRate_warns_iff 10000 _).mpr (Or.inl (by decide))
  · rfl
